import Mathlib

/-!
Verification of the drill-designer canvas core of the football-drill-planner
repository.  The `Designer` namespace embeds `src/pages/DrillDesignerPage.tsx`
(the final revision); the `DesignerBroken` namespace embeds the earlier
revision `src/pages/DrillDesignerPage.tsx.broken`, which holds the resize and
reset handlers.  Percentage-space interaction state is modelled over `ℚ`
(the handlers use only field operations and comparisons, which `ℚ` mirrors
exactly); the pixel-space wave synthesis, which uses square roots and sines,
is modelled over `ℝ`.
-/

namespace Designer

/-- A point in the normalized percentage coordinate space `{x, y}`. -/
structure PPoint where
  x : ℚ
  y : ℚ
deriving DecidableEq, Repr

/-- `Math.max(0, Math.min(100, v))`, the clamp applied to every captured
percentage coordinate. -/
def clampPct (v : ℚ) : ℚ := max 0 (min 100 v)

/-- Clamp both coordinates of a point, as every capture site does. -/
def clampPoint (p : PPoint) : PPoint := ⟨clampPct p.x, clampPct p.y⟩

/-- The `type` discriminator of `PitchElement` in the final revision. -/
inductive ElType where
  | player | icon | shape | equipment | marker | line
deriving DecidableEq, Repr

/-- `lineStyle : 'solid' | 'dotted' | 'dribble'`. -/
inductive LineStyle where
  | solid | dotted | dribble
deriving DecidableEq, Repr

/-- `drawMode : 'straight' | 'freehand'`. -/
inductive DrawMode where
  | straight | freehand
deriving DecidableEq, Repr

/-- A palette asset template (one entry of the `ASSETS` object).  Fields the
source leaves `undefined` on a given entry default to `none` / `false`. -/
structure Asset where
  id : String
  atype : ElType
  label : String := ""
  variant : Option String := none
  width : Option ℚ := none
  height : Option ℚ := none
  isGK : Bool := false
  isDefender : Bool := false
  dashed : Bool := false
  shaded : Bool := false
  fixedColor : Bool := false
  icon : Option String := none
  lineStyle : Option LineStyle := none
  drawMode : Option DrawMode := none
deriving DecidableEq, Repr

/-- The `PitchElement` record of the final revision. -/
structure PitchElement where
  instanceId : ℕ
  id : String
  atype : ElType
  x : ℚ
  y : ℚ
  width : Option ℚ := none
  height : Option ℚ := none
  rotation : Option ℚ := none
  color : Option String := none
  label : Option String := none
  variant : Option String := none
  icon : Option String := none
  isGK : Bool := false
  isDefender : Bool := false
  dashed : Bool := false
  shaded : Bool := false
  fixedColor : Bool := false
  points : Option (List PPoint) := none
  lineStyle : Option LineStyle := none
  drawMode : Option DrawMode := none
deriving DecidableEq, Repr

/-- The legacy `DrawingPath` record. -/
structure DrawingPath where
  id : ℕ
  points : List PPoint
  color : String
  dashed : Bool
deriving DecidableEq, Repr

/-- A DOM bounding rectangle (`getBoundingClientRect()` result). -/
structure BoundingRect where
  left : ℚ
  top : ℚ
  width : ℚ
  height : ℚ
deriving DecidableEq, Repr

/-- JavaScript `v || d` for an optional numeric field: `0` is falsy. -/
def jsOrNum (v : Option ℚ) (d : ℚ) : ℚ :=
  match v with
  | some w => if w = 0 then d else w
  | none => d

/-- The element built by `addElementToPitch`: the asset spread, then
`instanceId`, clamped `x`/`y`, palette colour (unless the asset has a fixed
colour), `width`/`height` defaulted via `|| 5`, and `rotation: 0`. -/
def elementFromAsset (a : Asset) (now : ℕ) (selectedColor : String)
    (x y : ℚ) : PitchElement :=
  { instanceId := now
    id := a.id
    atype := a.atype
    x := max 0 (min 100 x)
    y := max 0 (min 100 y)
    width := some (jsOrNum a.width 5)
    height := some (jsOrNum a.height 5)
    rotation := some 0
    color := if a.fixedColor then none else some selectedColor
    label := some a.label
    variant := a.variant
    icon := a.icon
    isGK := a.isGK
    isDefender := a.isDefender
    dashed := a.dashed
    shaded := a.shaded
    fixedColor := a.fixedColor
    points := none
    lineStyle := a.lineStyle
    drawMode := a.drawMode }

/-- `addElementToPitch`: convert the drop's client coordinates into the
container's percentage space and append the new element. -/
def addElementToPitch (rect : BoundingRect) (a : Asset)
    (clientX clientY : ℚ) (selectedColor : String) (now : ℕ)
    (elements : List PitchElement) : List PitchElement :=
  let x := (clientX - rect.left) / rect.width * 100
  let y := (clientY - rect.top) / rect.height * 100
  elements ++ [elementFromAsset a now selectedColor x y]

/-- The two owned collections touched by `handleUndo` and `handleClear`. -/
structure CanvasState where
  elements : List PitchElement
  paths : List DrawingPath
deriving DecidableEq, Repr

/-- `handleUndo`: drop the last path if any path exists, otherwise drop the
last element if any exists, otherwise do nothing. -/
def handleUndo (s : CanvasState) : CanvasState :=
  if 0 < s.paths.length then { s with paths := s.paths.dropLast }
  else if 0 < s.elements.length then { s with elements := s.elements.dropLast }
  else s

/-- Iterated undo. -/
def undoIter : ℕ → CanvasState → CanvasState
  | 0, s => s
  | n + 1, s => undoIter n (handleUndo s)

/-- The append-style actions recorded by the designer: committing a drawn
path, or committing/placing an element. -/
inductive CanvasAction where
  | appendElement (e : PitchElement)
  | appendPath (p : DrawingPath)
deriving DecidableEq, Repr

/-- Apply one append action to the collections. -/
def applyAction (s : CanvasState) : CanvasAction → CanvasState
  | .appendElement e => { s with elements := s.elements ++ [e] }
  | .appendPath p => { s with paths := s.paths ++ [p] }

/-- Apply a trace of append actions in order. -/
def applyTrace (s : CanvasState) (tr : List CanvasAction) : CanvasState :=
  tr.foldl applyAction s

/-- The four mode-carrying pieces of interaction state, plus the selection
that the toggles clear. -/
structure ModeState where
  moveMode : Bool
  deleteMode : Bool
  selectedLineType : Option Asset
  drawingShapeType : Option Asset
  selectedId : Option ℕ
deriving DecidableEq, Repr

/-- The state before any interaction: no mode active, nothing selected. -/
def initialModes : ModeState :=
  { moveMode := false, deleteMode := false, selectedLineType := none
    drawingShapeType := none, selectedId := none }

/-- `toggleMoveMode`. -/
def toggleMoveMode (s : ModeState) : ModeState :=
  { moveMode := !s.moveMode, deleteMode := false, selectedLineType := none
    drawingShapeType := none, selectedId := none }

/-- `toggleDeleteMode`. -/
def toggleDeleteMode (s : ModeState) : ModeState :=
  { deleteMode := !s.deleteMode, moveMode := false, selectedLineType := none
    drawingShapeType := none, selectedId := none }

/-- The palette asset `onClick` handler: a line tool sets `selectedLineType`
and clears `drawingShapeType`; a shape tool sets `drawingShapeType` and
clears the line tool and both mode flags; other assets are drag-only. -/
def paletteAssetClick (a : Asset) (s : ModeState) : ModeState :=
  if a.atype = ElType.line then
    { s with selectedLineType := some a, drawingShapeType := none }
  else if a.atype = ElType.shape then
    { s with drawingShapeType := some a, selectedLineType := none
             moveMode := false, deleteMode := false }
  else s

/-- How many of the four interaction modes are active at once. -/
def activeModeCount (s : ModeState) : ℕ :=
  (if s.moveMode then 1 else 0) + (if s.deleteMode then 1 else 0) +
    (if s.selectedLineType.isSome then 1 else 0) +
    (if s.drawingShapeType.isSome then 1 else 0)

/-- The `'straight-dotted'` arrows entry of `ASSETS`. -/
def assetStraightDotted : Asset :=
  { id := "straight-dotted", atype := .line, label := "Dot Line"
    lineStyle := some .dotted, drawMode := some .straight }

/-- The `'freehand-solid'` arrows entry of `ASSETS`. -/
def assetFreehandSolid : Asset :=
  { id := "freehand-solid", atype := .line, label := "Free Line"
    lineStyle := some .solid, drawMode := some .freehand }

/-- Transient line-draw capture state (`isDrawing`, `currentLine`). -/
structure LineGesture where
  isDrawing : Bool
  currentLine : List PPoint
deriving DecidableEq, Repr

/-- `handleLineDrawStart`: requires a selected line tool, then begins capture
with the single clamped first point. -/
def lineDrawStart (tool : Option Asset) (g : LineGesture) (p : PPoint) :
    LineGesture :=
  match tool with
  | none => g
  | some t =>
      if t.atype = ElType.line then
        { isDrawing := true, currentLine := [clampPoint p] }
      else g

/-- `handleLineDrawMove`: in freehand mode append the clamped point; in
straight mode keep only the first captured point and the new point.  The
source reads `prev[0]`; the move handler only fires while `isDrawing`, when
the capture list is nonempty, so the empty case below is unreachable. -/
def lineDrawMove (tool : Option Asset) (g : LineGesture) (p : PPoint) :
    LineGesture :=
  if g.isDrawing = false then g
  else
    match tool with
    | none => g
    | some t =>
        let np := clampPoint p
        if t.drawMode = some DrawMode.freehand then
          { g with currentLine := g.currentLine ++ [np] }
        else
          match g.currentLine with
          | c :: _ => { g with currentLine := [c, np] }
          | [] => { g with currentLine := [np] }

/-- The committed line element built in `handleLineDrawEnd`: position at the
first captured point, always-black colour, the captured points, and the
tool's style and mode. -/
def lineElementOfGesture (t : Asset) (now : ℕ) (pts : List PPoint) :
    PitchElement :=
  { instanceId := now
    id := t.id
    atype := ElType.line
    x := (pts.headD ⟨0, 0⟩).x
    y := (pts.headD ⟨0, 0⟩).y
    color := some "#000000"
    points := some pts
    lineStyle := t.lineStyle
    drawMode := t.drawMode }

/-- `handleLineDrawEnd`: commit the captured line as a new element only when
drawing is active, a tool is selected and at least two points were captured;
otherwise discard.  Either way the capture state is reset. -/
def handleLineDrawEnd (tool : Option Asset) (g : LineGesture) (now : ℕ)
    (elements : List PitchElement) : List PitchElement × LineGesture :=
  if g.isDrawing = false ∨ tool = none ∨ g.currentLine.length < 2 then
    (elements, { isDrawing := false, currentLine := [] })
  else
    match tool with
    | some t =>
        (elements ++ [lineElementOfGesture t now g.currentLine],
          { isDrawing := false, currentLine := [] })
    | none => (elements, { isDrawing := false, currentLine := [] })

end Designer

namespace DesignerBroken

/-- The `type` discriminator of the earlier revision's `PitchElement`. -/
inductive ElType where
  | player | icon | shape | equipment
deriving DecidableEq, Repr

/-- An `ASSETS` entry of the earlier revision, restricted to the fields its
`handleReset` reads: identity (`id`, `type`, `variant`) and default
dimensions (`width`, `height`).  Style flags are never consulted there. -/
structure Template where
  id : String
  ttype : ElType
  variant : Option String
  width : ℚ
  height : ℚ
deriving DecidableEq, Repr

/-- `ASSETS.players` of the earlier revision. -/
def playersCatalog : List Template :=
  [⟨"player", .player, none, 5, 4⟩,
   ⟨"gk", .player, none, 5, 4⟩]

/-- `ASSETS.equipment` of the earlier revision. -/
def equipmentCatalog : List Template :=
  [⟨"ball", .icon, none, 4, 4⟩,
   ⟨"cone", .equipment, some "cone", 4, 4⟩,
   ⟨"marker", .equipment, some "marker", 4, 4⟩,
   ⟨"pole", .equipment, some "pole", 2, 4⟩,
   ⟨"hurdle", .equipment, some "hurdle", 6, 4⟩,
   ⟨"minigoal", .equipment, some "minigoal", 10, 6⟩,
   ⟨"ladder", .equipment, some "ladder", 15, 5⟩]

/-- `ASSETS.shapes` of the earlier revision. -/
def shapesCatalog : List Template :=
  [⟨"arrow", .shape, some "arrow", 10, 10⟩,
   ⟨"arrow-dash", .shape, some "arrow", 10, 10⟩,
   ⟨"square", .shape, some "square", 10, 10⟩,
   ⟨"square-dash", .shape, some "square", 10, 10⟩,
   ⟨"circle", .shape, some "circle", 10, 10⟩,
   ⟨"circle-dash", .shape, some "circle", 10, 10⟩,
   ⟨"rect", .shape, some "rect", 15, 8⟩,
   ⟨"rect-dash", .shape, some "rect", 15, 8⟩,
   ⟨"cross", .shape, some "cross", 8, 8⟩]

/-- The earlier revision's `PitchElement`. -/
structure Element where
  instanceId : ℕ
  id : String
  ttype : ElType
  x : ℚ
  y : ℚ
  width : Option ℚ := none
  height : Option ℚ := none
  rotation : Option ℚ := none
  color : Option String := none
  label : Option String := none
  variant : Option String := none
  icon : Option String := none
  isGK : Bool := false
  dashed : Bool := false
deriving DecidableEq, Repr

/-- The `find` predicate of `handleReset`: a template matches when its `id`
equals the element's `id`, or its `type` and `variant` both do (in the
source an element and template that both leave `variant` undefined compare
equal, which `Option.none = Option.none` mirrors). -/
def templateMatches (el : Element) (a : Template) : Bool :=
  decide (a.id = el.id ∨ (a.ttype = el.ttype ∧ a.variant = el.variant))

/-- The `Object.values(ASSETS).forEach` lookup of `handleReset`: each
category list is searched with `find`, and a later category's match
overwrites an earlier one's. -/
def findTemplate (el : Element) : Option Template :=
  [playersCatalog, equipmentCatalog, shapesCatalog].foldl
    (fun acc ts =>
      match ts.find? (templateMatches el) with
      | some t => some t
      | none => acc)
    none

/-- The field update `handleReset` applies from a found template:
`width: originalAsset.width || 5`, likewise for height, `rotation: 0`. -/
def applyTemplate (t : Template) (el : Element) : Element :=
  { el with
    width := some (if t.width = 0 then 5 else t.width)
    height := some (if t.height = 0 then 5 else t.height)
    rotation := some 0 }

/-- `handleReset`: look the element up by `instanceId`, find its originating
template, and restore dimensions and rotation; a no-op when either lookup
fails. -/
def handleReset (instanceId : ℕ) (els : List Element) : List Element :=
  match els.find? (fun el => el.instanceId == instanceId) with
  | none => els
  | some element =>
      match findTemplate element with
      | none => els
      | some t =>
          els.map (fun el =>
            if el.instanceId == instanceId then applyTemplate t el else el)

/-- The per-move dimension computation of `handleResize`: the `'e'` part of
the handle direction adds the x-delta to the initial width, the `'s'` part
adds the y-delta to the initial height, and both are clamped into
`[2, 30]` (`MAX_WIDTH = MAX_HEIGHT = 30`). -/
def resizeDims (hasE hasS : Bool) (initialWidth initialHeight : ℚ)
    (deltaXPercent deltaYPercent : ℚ) : ℚ × ℚ :=
  let newWidth := if hasE then initialWidth + deltaXPercent else initialWidth
  let newHeight := if hasS then initialHeight + deltaYPercent else initialHeight
  (max 2 (min newWidth 30), max 2 (min newHeight 30))

/-- One firing of `handleResize`'s inner `handleMove`: every matching element
gets the freshly clamped dimensions (the clamp is applied live, on each
pointer move, from the dimensions captured at gesture start). -/
def handleResizeMove (instanceId : ℕ) (hasE hasS : Bool)
    (initialWidth initialHeight deltaXPercent deltaYPercent : ℚ)
    (els : List Element) : List Element :=
  els.map (fun el =>
    if el.instanceId == instanceId then
      { el with
        width := some (resizeDims hasE hasS initialWidth initialHeight
          deltaXPercent deltaYPercent).1
        height := some (resizeDims hasE hasS initialWidth initialHeight
          deltaXPercent deltaYPercent).2 }
    else el)

end DesignerBroken

namespace Designer

noncomputable section

/-- A point in the nominal 400 × 600 pixel canvas the line renderer works
in. -/
structure Pt where
  x : ℝ
  y : ℝ

attribute [ext] Pt

/-- The scaling of a committed line's percentage point onto the nominal
pixel canvas: `(p.x / 100) * pitchWidth`, `(p.y / 100) * pitchHeight` with
`pitchWidth = 400`, `pitchHeight = 600`. -/
def scalePoint (p : PPoint) : Pt :=
  ⟨(p.x : ℝ) / 100 * 400, (p.y : ℝ) / 100 * 600⟩

/-- `Math.sqrt(Math.pow(p2.x - p1.x, 2) + Math.pow(p2.y - p1.y, 2))`, the
per-segment Euclidean distance of the dribble loop. -/
def segDistance (p1 p2 : Pt) : ℝ :=
  Real.sqrt ((p2.x - p1.x) ^ 2 + (p2.y - p1.y) ^ 2)

/-- `steps = Math.max(Math.floor(distance / 2), 15)`. -/
def segSteps (p1 p2 : Pt) : ℕ :=
  max (Int.toNat ⌊segDistance p1 p2 / 2⌋) 15

/-- `const amplitude = isFreehand ? 10 : 6`. -/
def amplitudeFor (isFreehand : Bool) : ℝ := if isFreehand then 10 else 6

/-- `const frequency = isFreehand ? 0.12 : 0.2`. -/
def frequencyFor (isFreehand : Bool) : ℝ := if isFreehand then 0.12 else 0.2

/-- The `j`-th sub-sample of a segment in the dribble loop: linear
interpolation at `t = j / steps`, displaced along the segment's
perpendicular `(-dy / length, dx / length)` by
`Math.sin(currentDistance * frequency * Math.PI) * amplitude`, where
`currentDistance` is the running arc-length `cumulativeDistance + t *
distance`. -/
def waveSample (amp freq : ℝ) (p1 p2 : Pt) (cumulativeDistance : ℝ)
    (steps j : ℕ) : Pt :=
  let t : ℝ := (j : ℝ) / (steps : ℝ)
  let baseX := p1.x + (p2.x - p1.x) * t
  let baseY := p1.y + (p2.y - p1.y) * t
  let dx := p2.x - p1.x
  let dy := p2.y - p1.y
  let length := Real.sqrt (dx * dx + dy * dy)
  let perpX := -dy / length
  let perpY := dx / length
  let currentDistance := cumulativeDistance + t * segDistance p1 p2
  let waveOffset := Real.sin (currentDistance * freq * Real.pi) * amp
  ⟨baseX + perpX * waveOffset, baseY + perpY * waveOffset⟩

/-- The sub-samples one segment pushes onto `wavePoints`: `j` runs over
`0 ≤ j ≤ steps` inclusive. -/
def waveSamplesSeg (amp freq : ℝ) (p1 p2 : Pt) (cumulativeDistance : ℝ) :
    List Pt :=
  (List.range (segSteps p1 p2 + 1)).map
    (waveSample amp freq p1 p2 cumulativeDistance (segSteps p1 p2))

/-- The full `wavePoints` array: walk each consecutive pair of input points,
emitting its sub-samples and accumulating the arc-length. -/
def dribbleWavePoints (amp freq : ℝ) : List Pt → ℝ → List Pt
  | p1 :: p2 :: rest, cumulativeDistance =>
      waveSamplesSeg amp freq p1 p2 cumulativeDistance ++
        dribbleWavePoints amp freq (p2 :: rest)
          (cumulativeDistance + segDistance p1 p2)
  | _, _ => []

/-- `wavePoints` for a dribble line of the given draw mode, started with
`cumulativeDistance = 0`. -/
def dribbleWavePointsFor (isFreehand : Bool) (points : List Pt) : List Pt :=
  dribbleWavePoints (amplitudeFor isFreehand) (frequencyFor isFreehand)
    points 0

/-- The property claimed of each emitted dribble sub-sample: it sits at the
base interpolation point displaced along the segment perpendicular by the
sine offset, and its distance from that base point is at most the
amplitude. -/
def sampleWithinAmplitude (isFreehand : Bool) (p1 p2 : Pt)
    (cumulativeDistance : ℝ) (j : ℕ) : Prop :=
  let amp := amplitudeFor isFreehand
  let freq := frequencyFor isFreehand
  let steps := segSteps p1 p2
  let s := waveSample amp freq p1 p2 cumulativeDistance steps j
  let t : ℝ := (j : ℝ) / (steps : ℝ)
  let b : Pt := ⟨p1.x + (p2.x - p1.x) * t, p1.y + (p2.y - p1.y) * t⟩
  let dx := p2.x - p1.x
  let dy := p2.y - p1.y
  let len := Real.sqrt (dx * dx + dy * dy)
  let off := Real.sin ((cumulativeDistance + t * segDistance p1 p2) *
    freq * Real.pi) * amp
  s.x = b.x + -dy / len * off ∧ s.y = b.y + dx / len * off ∧
    Real.sqrt ((s.x - b.x) ^ 2 + (s.y - b.y) ^ 2) ≤ amp

/-- Non-degeneracy of one segment of the dribble loop: its length is
positive, so the unguarded divisions by `length` divide by a nonzero
number and the perpendicular really is a unit vector. -/
def segNondegenerate (p1 p2 : Pt) : Prop :=
  0 < segDistance p1 p2 ∧
    (-(p2.y - p1.y) / Real.sqrt ((p2.x - p1.x) * (p2.x - p1.x) +
        (p2.y - p1.y) * (p2.y - p1.y))) ^ 2 +
      ((p2.x - p1.x) / Real.sqrt ((p2.x - p1.x) * (p2.x - p1.x) +
        (p2.y - p1.y) * (p2.y - p1.y))) ^ 2 = 1

end

/-- What a drop at client point `(cx, cy)` produces: the collection grows by
exactly one element, positioned at the clamped percentage conversion of the
drop point relative to the container rectangle. -/
def dropSpec (rect : BoundingRect) (a : Asset) (cx cy : ℚ)
    (selectedColor : String) (now : ℕ) (els : List PitchElement) : Prop :=
  ∃ e : PitchElement,
    addElementToPitch rect a cx cy selectedColor now els = els ++ [e] ∧
    e.x = max 0 (min 100 (100 * (cx - rect.left) / rect.width)) ∧
    e.y = max 0 (min 100 (100 * (cy - rect.top) / rect.height))

/-- What a completed straight-mode line gesture commits: the capture holds
exactly the clamped first point and the clamped final pointer position, and
pointer-up appends one line element carrying exactly those two points and
the tool's style and mode. -/
def straightCommitSpec (t : Asset) (p0 : PPoint) (ms : List PPoint)
    (now : ℕ) (els : List PitchElement) : Prop :=
  let c0 := clampPoint p0
  let cl := clampPoint (ms.getLastD p0)
  let g := List.foldl (lineDrawMove (some t))
    (lineDrawStart (some t) ⟨false, []⟩ p0) ms
  g.currentLine = [c0, cl] ∧
  handleLineDrawEnd (some t) g now els
    = (els ++ [lineElementOfGesture t now [c0, cl]],
       { isDrawing := false, currentLine := [] }) ∧
  (lineElementOfGesture t now [c0, cl]).points = some [c0, cl] ∧
  [c0, cl].length = 2 ∧
  (lineElementOfGesture t now [c0, cl]).drawMode = t.drawMode ∧
  (lineElementOfGesture t now [c0, cl]).lineStyle = t.lineStyle

/-- The commit guard of `handleLineDrawEnd`: fewer than two captured points
discard the gesture without touching the collection, and the collection
changes only by appending the committed line when at least two points were
captured with an active drawing and a selected tool. -/
def commitGuardSpec (tool : Option Asset) (g : LineGesture) (now : ℕ)
    (els : List PitchElement) : Prop :=
  (g.currentLine.length < 2 →
    handleLineDrawEnd tool g now els
      = (els, { isDrawing := false, currentLine := [] })) ∧
  ((handleLineDrawEnd tool g now els).1 ≠ els →
    2 ≤ g.currentLine.length) ∧
  (∀ t : Asset, tool = some t → g.isDrawing = true →
    2 ≤ g.currentLine.length →
    handleLineDrawEnd tool g now els
      = (els ++ [lineElementOfGesture t now g.currentLine],
         { isDrawing := false, currentLine := [] }))

/-- What `handleUndo` actually does: it drops the last path when any path
exists, otherwise the last element when any exists, otherwise nothing; and
iterating it once per stored item drains both collections to empty. -/
def undoSpec (s : CanvasState) : Prop :=
  (s.paths ≠ [] → handleUndo s = { s with paths := s.paths.dropLast }) ∧
  (s.paths = [] → s.elements ≠ [] →
    handleUndo s = { s with elements := s.elements.dropLast }) ∧
  (s.paths = [] → s.elements = [] → handleUndo s = s) ∧
  undoIter (s.paths.length + s.elements.length) s
    = { elements := [], paths := [] }

/-- The mode clearing each activation site actually performs: the move and
delete toggles clear everything else, a shape tool clears everything else,
but a line tool clears only the shape tool and leaves both mode flags
untouched. -/
def modeTransitionSpec (s : ModeState) (a : Asset) : Prop :=
  ((toggleMoveMode s).deleteMode = false ∧
    (toggleMoveMode s).selectedLineType = none ∧
    (toggleMoveMode s).drawingShapeType = none) ∧
  ((toggleDeleteMode s).moveMode = false ∧
    (toggleDeleteMode s).selectedLineType = none ∧
    (toggleDeleteMode s).drawingShapeType = none) ∧
  (a.atype = ElType.shape →
    ((paletteAssetClick a s).moveMode = false ∧
      (paletteAssetClick a s).deleteMode = false ∧
      (paletteAssetClick a s).selectedLineType = none)) ∧
  (a.atype = ElType.line →
    ((paletteAssetClick a s).drawingShapeType = none ∧
      (paletteAssetClick a s).moveMode = s.moveMode ∧
      (paletteAssetClick a s).deleteMode = s.deleteMode))

/-- A concrete placed element, used as explicit input below. -/
def sampleElement : PitchElement :=
  { instanceId := 1, id := "player", atype := .player, x := 50, y := 50
    width := some 5, height := some 4, rotation := some 0
    color := some "#10b981", label := some "Player" }

/-- A concrete legacy drawing path, used as explicit input below. -/
def samplePath : DrawingPath :=
  { id := 2, points := [⟨0, 0⟩, ⟨10, 10⟩], color := "#ffffff"
    dashed := false }

end Designer

namespace DesignerBroken

/-- What a south-east resize gesture does on each pointer move: both axes
get the corresponding delta added to the dimension captured at gesture
start, clamped live into `[2, 30]`; in particular a `(+10, +10)` delta on an
element of valid size caps at `min (initial + 10) 30`. -/
def resizeSESpec (initialWidth initialHeight deltaXPercent deltaYPercent : ℚ)
    (instanceId : ℕ) (els : List Element) : Prop :=
  resizeDims true true initialWidth initialHeight deltaXPercent deltaYPercent
    = (max 2 (min (initialWidth + deltaXPercent) 30),
       max 2 (min (initialHeight + deltaYPercent) 30)) ∧
  resizeDims true true initialWidth initialHeight 10 10
    = (min (initialWidth + 10) 30, min (initialHeight + 10) 30) ∧
  handleResizeMove instanceId true true initialWidth initialHeight
      deltaXPercent deltaYPercent els
    = els.map (fun el =>
        if el.instanceId == instanceId then
          { el with
            width := some (max 2 (min (initialWidth + deltaXPercent) 30))
            height := some (max 2 (min (initialHeight + deltaYPercent) 30)) }
        else el)

/-- What `handleReset` guarantees: resetting twice equals resetting once,
and when the found element matches no catalog template the collection is
left unchanged. -/
def resetSpec (instanceId : ℕ) (els : List Element) : Prop :=
  handleReset instanceId (handleReset instanceId els)
    = handleReset instanceId els ∧
  (∀ el : Element,
    els.find? (fun e => e.instanceId == instanceId) = some el →
    findTemplate el = none → handleReset instanceId els = els)

/-- A concrete element matching no catalog template: its `id` names no
asset and no shape template carries the `hexagon` variant. -/
def hexElement : Element :=
  { instanceId := 7, id := "hexagon", ttype := .shape, x := 1, y := 2
    variant := some "hexagon", width := some 9, height := some 9
    rotation := some 45 }

/-- A concrete element instantiated from the `player` asset. -/
def playerElement : Element :=
  { instanceId := 3, id := "player", ttype := .player, x := 50, y := 50
    width := some 12, height := some 11, rotation := some 30 }

end DesignerBroken

namespace Designer

/-- Claim C4: dropping an asset at client point `(cx, cy)` on a container
occupying `[left, left + w] × [top, top + h]` with `w, h > 0` creates one
new element with `x = clamp(100 * (cx - left) / w, 0, 100)` and
`y = clamp(100 * (cy - top) / h, 0, 100)`. -/
theorem c4_drop_position (rect : BoundingRect) (a : Asset) (cx cy : ℚ)
    (selectedColor : String) (now : ℕ) (els : List PitchElement)
    (hw : 0 < rect.width) (hh : 0 < rect.height) :
    dropSpec rect a cx cy selectedColor now els := by
  refine ⟨elementFromAsset a now selectedColor
    ((cx - rect.left) / rect.width * 100)
    ((cy - rect.top) / rect.height * 100), rfl, ?_, ?_⟩
  · simp only [elementFromAsset]
    congr 1
    congr 1
    ring
  · simp only [elementFromAsset]
    congr 1
    congr 1
    ring

/-- Witness for C4 at a concrete container and drop point. -/
theorem c4_drop_position_witness :
    (0 : ℚ) < 200 ∧ (0 : ℚ) < 300 ∧
      dropSpec ⟨10, 20, 200, 300⟩ assetStraightDotted 110 170 "#10b981" 42
        [sampleElement] :=
  ⟨by norm_num, by norm_num,
    c4_drop_position ⟨10, 20, 200, 300⟩ assetStraightDotted 110 170
      "#10b981" 42 [sampleElement] (by norm_num) (by norm_num)⟩

/-- Counterexample to claim C5: from the idle state, activating move mode
and then selecting a line tool from the palette leaves both move mode and
the line tool simultaneously active, because the line-tool click site
clears only the shape tool. -/
theorem c5_modes_counterexample :
    activeModeCount
        (paletteAssetClick assetStraightDotted (toggleMoveMode initialModes))
      = 2 ∧
    (paletteAssetClick assetStraightDotted
      (toggleMoveMode initialModes)).moveMode = true ∧
    (paletteAssetClick assetStraightDotted
      (toggleMoveMode initialModes)).selectedLineType.isSome = true := by
  decide

/-- Claim C5 (amended): the move and delete toggles and the shape-tool
click clear all other modes, but the line-tool click clears only the shape
tool and leaves the move and delete flags unchanged, so move (or delete)
mode and an active line tool can coexist. -/
theorem c5_mode_clearing (s : ModeState) (a : Asset) :
    modeTransitionSpec s a := by
  unfold modeTransitionSpec
  refine ⟨⟨rfl, rfl, rfl⟩, ⟨rfl, rfl, rfl⟩, ?_, ?_⟩
  · intro h
    simp [paletteAssetClick, h]
  · intro h
    simp [paletteAssetClick, h]

/-- Witness for C5's amended statement at a concrete state and tool. -/
theorem c5_mode_clearing_witness :
    assetStraightDotted.atype = ElType.line ∧
      modeTransitionSpec (toggleMoveMode initialModes) assetStraightDotted :=
  ⟨by decide, c5_mode_clearing (toggleMoveMode initialModes)
    assetStraightDotted⟩

/-- Counterexample to claim C6: after appending a path and then an element,
the most recent append is the element append, but `handleUndo` removes the
path, so it is not the inverse of the most recent append action. -/
theorem c6_undo_counterexample :
    handleUndo (applyTrace { elements := [], paths := [] }
        [.appendPath samplePath, .appendElement sampleElement])
      ≠ applyTrace { elements := [], paths := [] }
        ([CanvasAction.appendPath samplePath,
          .appendElement sampleElement].dropLast) := by
  decide

/-- Draining: iterating `handleUndo` once per stored item empties both
collections. -/
theorem undoIter_drain (n : ℕ) :
    ∀ s : CanvasState, s.paths.length + s.elements.length = n →
      undoIter n s = { elements := [], paths := [] } := by
  induction n with
  | zero =>
      intro s h
      obtain ⟨els, ps⟩ := s
      simp only at h
      have h1 : ps = [] := List.length_eq_zero.mp (by omega)
      have h2 : els = [] := List.length_eq_zero.mp (by omega)
      subst h1
      subst h2
      rfl
  | succ n ih =>
      intro s h
      rw [undoIter]
      apply ih
      by_cases hp : 0 < s.paths.length
      · simp only [handleUndo, if_pos hp, List.length_dropLast]
        omega
      · by_cases he : 0 < s.elements.length
        · simp only [handleUndo, if_neg hp, if_pos he, List.length_dropLast]
          omega
        · omega

/-- Claim C6 (amended): `handleUndo` removes the most recent path if any
path exists, otherwise the most recent element if any exists, otherwise it
is a no-op (so it never fails past empty); iterating it drains both
collections one item at a time down to empty. -/
theorem c6_undo_priority (s : CanvasState) : undoSpec s := by
  unfold undoSpec
  refine ⟨?_, ?_, ?_, undoIter_drain _ s rfl⟩
  · intro hp
    have h1 : 0 < s.paths.length := List.length_pos.mpr hp
    simp [handleUndo, h1]
  · intro hp he
    have h0 : ¬ 0 < s.paths.length := by simp [hp]
    have h1 : 0 < s.elements.length := List.length_pos.mpr he
    simp [handleUndo, h0, h1]
  · intro hp he
    simp [handleUndo, hp, he]

/-- Witness for C6's amended statement at a concrete state. -/
theorem c6_undo_priority_witness :
    ([samplePath] : List DrawingPath) ≠ [] ∧
      undoSpec { elements := [sampleElement], paths := [samplePath] } :=
  ⟨by decide,
    c6_undo_priority { elements := [sampleElement], paths := [samplePath] }⟩

/-- Claim C7: a line gesture commits a new element only when at least two
points were captured; with fewer than two, pointer-up discards the gesture,
creates no element, and leaves the collection unchanged. -/
theorem c7_commit_guard (tool : Option Asset) (g : LineGesture) (now : ℕ)
    (els : List PitchElement) : commitGuardSpec tool g now els := by
  unfold commitGuardSpec
  refine ⟨?_, ?_, ?_⟩
  · intro h
    simp [handleLineDrawEnd, h]
  · intro hne
    by_contra hlt
    push_neg at hlt
    exact hne (by simp [handleLineDrawEnd, hlt])
  · intro t ht hdraw hlen
    subst ht
    have h1 : ¬ g.currentLine.length < 2 := by omega
    simp [handleLineDrawEnd, hdraw, h1]

/-- Witness for C7 at a concrete two-point gesture. -/
theorem c7_commit_guard_witness :
    2 ≤ ([⟨1, 1⟩, ⟨2, 2⟩] : List PPoint).length ∧
      commitGuardSpec (some assetFreehandSolid)
        { isDrawing := true, currentLine := [⟨1, 1⟩, ⟨2, 2⟩] } 9
        [sampleElement] :=
  ⟨by decide, c7_commit_guard (some assetFreehandSolid)
    { isDrawing := true, currentLine := [⟨1, 1⟩, ⟨2, 2⟩] } 9
    [sampleElement]⟩

end Designer

namespace DesignerBroken

/-- Claim C8: a south-east resize with percentage delta `(+dx, +dy)` sets
`width = clamp(initialWidth + dx, 2, 30)` and
`height = clamp(initialHeight + dy, 2, 30)` on every pointer move, so a
`(+10, +10)` delta yields `min (initial + 10) 30` on each axis. -/
theorem c8_resize_se_clamp
    (initialWidth initialHeight deltaXPercent deltaYPercent : ℚ)
    (instanceId : ℕ) (els : List Element)
    (hW : 2 ≤ initialWidth) (hH : 2 ≤ initialHeight) :
    resizeSESpec initialWidth initialHeight deltaXPercent deltaYPercent
      instanceId els := by
  unfold resizeSESpec
  refine ⟨by simp [resizeDims], ?_, by simp [handleResizeMove, resizeDims]⟩
  simp only [resizeDims, if_pos, Prod.mk.injEq]
  constructor
  · exact max_eq_right (le_min (by linarith) (by norm_num))
  · exact max_eq_right (le_min (by linarith) (by norm_num))

/-- Witness for C8 at the scenario's `5 × 4` default player size. -/
theorem c8_resize_se_clamp_witness :
    (2 : ℚ) ≤ 5 ∧ (2 : ℚ) ≤ 4 ∧
      resizeSESpec 5 4 3 7 3 [playerElement] :=
  ⟨by norm_num, by norm_num,
    c8_resize_se_clamp 5 4 3 7 3 [playerElement] (by norm_num) (by norm_num)⟩

/-- The template-matching predicate only reads the identity fields, which a
reset update preserves. -/
theorem templateMatches_applyTemplate (t : Template) (el : Element)
    (a : Template) :
    templateMatches (applyTemplate t el) a = templateMatches el a := by
  simp [templateMatches, applyTemplate]

/-- A reset update does not change which template the lookup finds. -/
theorem findTemplate_applyTemplate (t : Template) (el : Element) :
    findTemplate (applyTemplate t el) = findTemplate el := by
  unfold findTemplate
  rw [funext (templateMatches_applyTemplate t el)]

/-- Applying the same template's defaults twice equals applying them once. -/
theorem applyTemplate_idem (t : Template) (el : Element) :
    applyTemplate t (applyTemplate t el) = applyTemplate t el := by
  simp [applyTemplate]

/-- Claim C9: reset is idempotent, and an element matching no catalog
template is left unchanged. -/
theorem c9_reset_idempotent (instanceId : ℕ) (els : List Element) :
    resetSpec instanceId els := by
  unfold resetSpec
  constructor
  · cases hfind : els.find? (fun e => e.instanceId == instanceId) with
    | none =>
        have h1 : handleReset instanceId els = els := by
          simp [handleReset, hfind]
        rw [h1, h1]
    | some element =>
        cases htpl : findTemplate element with
        | none =>
            have h1 : handleReset instanceId els = els := by
              simp [handleReset, hfind, htpl]
            rw [h1, h1]
        | some t =>
            have hmain : handleReset instanceId els
                = els.map (fun el =>
                    if el.instanceId == instanceId then applyTemplate t el
                    else el) := by
              simp [handleReset, hfind, htpl]
            set f : Element → Element := fun el =>
              if el.instanceId == instanceId then applyTemplate t el else el
              with hf
            have hpf : (fun e : Element => e.instanceId == instanceId) ∘ f
                = (fun e : Element => e.instanceId == instanceId) := by
              funext e
              simp only [hf, Function.comp]
              split
              · simp [applyTemplate]
              · rfl
            have hpe := List.find?_some hfind
            have hfm : (els.map f).find?
                (fun e : Element => e.instanceId == instanceId)
                = some (applyTemplate t element) := by
              rw [List.find?_map, hpf, hfind]
              simp only [Option.map_some', hf]
              rw [if_pos hpe]
            have htpl2 : findTemplate (applyTemplate t element) = some t := by
              rw [findTemplate_applyTemplate]
              exact htpl
            have hsecond : handleReset instanceId (els.map f)
                = (els.map f).map f := by
              simp only [handleReset, hfm, htpl2, hf]
            have hff : f ∘ f = f := by
              funext e
              simp only [hf, Function.comp]
              by_cases hc : (e.instanceId == instanceId) = true
              · simp [hc, applyTemplate]
              · simp [hc]
            rw [hmain, hsecond, List.map_map, hff]
  · intro el hfind hnone
    simp [handleReset, hfind, hnone]

/-- Witness for C9: the hexagon element matches no template, and reset on
its collection is idempotent and a no-op. -/
theorem c9_reset_idempotent_witness :
    ([hexElement].find? (fun e => e.instanceId == 7) = some hexElement) ∧
      findTemplate hexElement = none ∧ resetSpec 7 [hexElement] :=
  ⟨by decide, by decide, c9_reset_idempotent 7 [hexElement]⟩

end DesignerBroken

namespace Designer

/-- For a nonempty list the `getLastD` fallback is irrelevant. -/
theorem getLastD_irrel (l : List PPoint) (a b : PPoint) (h : l ≠ []) :
    l.getLastD a = l.getLastD b := by
  cases l with
  | nil => exact absurd rfl h
  | cons x xs => rw [List.getLastD_cons, List.getLastD_cons]

/-- In straight mode every pointer move keeps only the first captured point
and the latest clamped pointer position. -/
theorem foldl_lineDrawMove_straight (t : Asset)
    (hd : t.drawMode = some DrawMode.straight) :
    ∀ (ms : List PPoint) (c0 : PPoint) (rest : List PPoint), ms ≠ [] →
      List.foldl (lineDrawMove (some t))
          { isDrawing := true, currentLine := c0 :: rest } ms
        = { isDrawing := true
            currentLine := [c0, clampPoint (ms.getLastD c0)] } := by
  intro ms
  induction ms with
  | nil => intro c0 rest h; exact absurd rfl h
  | cons m ms ih =>
      intro c0 rest _
      have hstep : lineDrawMove (some t)
          { isDrawing := true, currentLine := c0 :: rest } m
          = { isDrawing := true, currentLine := [c0, clampPoint m] } := by
        simp [lineDrawMove, hd]
      cases ms with
      | nil =>
          simp only [List.foldl_cons, List.foldl_nil, hstep,
            List.getLastD_cons, List.getLastD_nil]
      | cons m2 ms2 =>
          rw [List.foldl_cons, hstep,
            ih c0 [clampPoint m] (by simp)]
          simp only [List.getLastD_cons]

/-- Claim C3: a completed straight-mode line gesture commits exactly two
points, the clamped first captured point and the clamped final pointer
position, with the tool's draw mode and line style, however many move
events occurred. -/
theorem c3_straight_two_points (t : Asset) (p0 : PPoint) (ms : List PPoint)
    (now : ℕ) (els : List PitchElement)
    (ht : t.atype = ElType.line) (hd : t.drawMode = some DrawMode.straight)
    (hms : ms ≠ []) :
    straightCommitSpec t p0 ms now els := by
  have hstart : lineDrawStart (some t) { isDrawing := false, currentLine := [] }
      p0 = { isDrawing := true, currentLine := [clampPoint p0] } := by
    simp [lineDrawStart, ht]
  have hfold := foldl_lineDrawMove_straight t hd ms (clampPoint p0) [] hms
  have hlast : ms.getLastD (clampPoint p0) = ms.getLastD p0 :=
    getLastD_irrel ms _ _ hms
  simp only [straightCommitSpec]
  refine ⟨?_, ?_, rfl, rfl, rfl, rfl⟩
  · rw [hstart, hfold, hlast]
  · rw [hstart, hfold, hlast]
    simp [handleLineDrawEnd]

/-- Witness for C3 at the spec's scenario: a straight dotted line from
`(10, 10)` to `(90, 90)` commits points `[{10,10}, {90,90}]`. -/
theorem c3_straight_two_points_witness :
    assetStraightDotted.atype = ElType.line ∧
    assetStraightDotted.drawMode = some DrawMode.straight ∧
    ([⟨90, 90⟩] : List PPoint) ≠ [] ∧
    ([⟨10, 10⟩, ⟨90, 90⟩] : List PPoint)
      = [clampPoint ⟨10, 10⟩,
         clampPoint (([⟨90, 90⟩] : List PPoint).getLastD ⟨10, 10⟩)] ∧
    straightCommitSpec assetStraightDotted ⟨10, 10⟩ [⟨90, 90⟩] 11
      [sampleElement] :=
  ⟨by decide, by decide, by decide, by decide,
    c3_straight_two_points assetStraightDotted ⟨10, 10⟩ [⟨90, 90⟩] 11
      [sampleElement] (by decide) (by decide) (by decide)⟩

end Designer

namespace Designer

/-- Two distinct points give a positive sum of coordinate squares. -/
theorem sq_sum_pos_of_ne (p1 p2 : Pt) (h : p1 ≠ p2) :
    0 < (p2.x - p1.x) * (p2.x - p1.x) + (p2.y - p1.y) * (p2.y - p1.y) := by
  rcases eq_or_ne p2.x p1.x with hx | hx
  · rcases eq_or_ne p2.y p1.y with hy | hy
    · exact absurd (Pt.ext hx hy).symm h
    · have hy2 : 0 < (p2.y - p1.y) * (p2.y - p1.y) :=
        mul_self_pos.mpr (sub_ne_zero.mpr hy)
      nlinarith [mul_self_nonneg (p2.x - p1.x)]
  · have hx2 : 0 < (p2.x - p1.x) * (p2.x - p1.x) :=
      mul_self_pos.mpr (sub_ne_zero.mpr hx)
    nlinarith [mul_self_nonneg (p2.y - p1.y)]

/-- Two distinct points are a positive `segDistance` apart. -/
theorem segDistance_pos (p1 p2 : Pt) (h : p1 ≠ p2) :
    0 < segDistance p1 p2 := by
  unfold segDistance
  apply Real.sqrt_pos.mpr
  have h1 := sq_sum_pos_of_ne p1 p2 h
  nlinarith [h1]

/-- For a nondegenerate segment the computed perpendicular is a unit
vector. -/
theorem perp_unit (p1 p2 : Pt) (h : p1 ≠ p2) :
    (-(p2.y - p1.y) / Real.sqrt ((p2.x - p1.x) * (p2.x - p1.x) +
        (p2.y - p1.y) * (p2.y - p1.y))) ^ 2 +
      ((p2.x - p1.x) / Real.sqrt ((p2.x - p1.x) * (p2.x - p1.x) +
        (p2.y - p1.y) * (p2.y - p1.y))) ^ 2 = 1 := by
  have hpos := sq_sum_pos_of_ne p1 p2 h
  have hlen0 : Real.sqrt ((p2.x - p1.x) * (p2.x - p1.x) +
      (p2.y - p1.y) * (p2.y - p1.y)) ≠ 0 :=
    ne_of_gt (Real.sqrt_pos.mpr hpos)
  have hsq : Real.sqrt ((p2.x - p1.x) * (p2.x - p1.x) +
      (p2.y - p1.y) * (p2.y - p1.y)) ^ 2
      = (p2.x - p1.x) * (p2.x - p1.x) + (p2.y - p1.y) * (p2.y - p1.y) :=
    Real.sq_sqrt hpos.le
  field_simp
  nlinarith [hsq]

/-- A displacement along the unit perpendicular of size `off` with
`|off| ≤ amp` stays within `amp` of the base point. -/
theorem perp_disp_bound (dx dy off amp : ℝ) (hamp : 0 ≤ amp)
    (hpos : 0 < dx * dx + dy * dy) (hoff : |off| ≤ amp) :
    Real.sqrt ((-dy / Real.sqrt (dx * dx + dy * dy) * off) ^ 2 +
      (dx / Real.sqrt (dx * dx + dy * dy) * off) ^ 2) ≤ amp := by
  have hlen0 : Real.sqrt (dx * dx + dy * dy) ≠ 0 :=
    ne_of_gt (Real.sqrt_pos.mpr hpos)
  have hsq : Real.sqrt (dx * dx + dy * dy) ^ 2 = dx * dx + dy * dy :=
    Real.sq_sqrt hpos.le
  have hsum : (-dy / Real.sqrt (dx * dx + dy * dy) * off) ^ 2 +
      (dx / Real.sqrt (dx * dx + dy * dy) * off) ^ 2 = off ^ 2 := by
    field_simp
    nlinarith [hsq]
  rw [hsum, Real.sqrt_sq_eq_abs]
  exact hoff

/-- The amplitude constants are nonnegative. -/
theorem amplitudeFor_nonneg (isFreehand : Bool) :
    0 ≤ amplitudeFor isFreehand := by
  cases isFreehand <;> norm_num [amplitudeFor]

/-- Claim C1: for a two-point dribble input, the synthesizer emits exactly
`max(floor(L / 2), 15) + 1` wave samples, `L` the points' Euclidean
distance on the pixel canvas. -/
theorem c1_dribble_sample_count (isFreehand : Bool) (p q : Pt) :
    (dribbleWavePointsFor isFreehand [p, q]).length
      = max (Int.toNat ⌊segDistance p q / 2⌋) 15 + 1 := by
  simp [dribbleWavePointsFor, dribbleWavePoints, waveSamplesSeg, segSteps]

/-- Claim C2: each emitted dribble sub-sample is the base interpolation
point displaced along the segment's unit perpendicular by
`amplitude * sin(cumulativeDistance * frequency * pi)`, hence at distance at
most the amplitude (10 for freehand, 6 for straight) from the baseline. -/
theorem c2_amplitude_bound (isFreehand : Bool) (p1 p2 : Pt)
    (cumulativeDistance : ℝ) (j : ℕ) (hne : p1 ≠ p2)
    (hj : j ≤ segSteps p1 p2) :
    sampleWithinAmplitude isFreehand p1 p2 cumulativeDistance j ∧
    amplitudeFor true = 10 ∧ amplitudeFor false = 6 ∧
    frequencyFor true = 0.12 ∧ frequencyFor false = 0.2 := by
  refine ⟨?_, rfl, rfl, rfl, rfl⟩
  unfold sampleWithinAmplitude
  refine ⟨rfl, rfl, ?_⟩
  have hamp := amplitudeFor_nonneg isFreehand
  have hpos := sq_sum_pos_of_ne p1 p2 hne
  have hoff : |Real.sin ((cumulativeDistance +
      (j : ℝ) / (segSteps p1 p2 : ℝ) * segDistance p1 p2) *
        frequencyFor isFreehand * Real.pi) * amplitudeFor isFreehand|
      ≤ amplitudeFor isFreehand := by
    rw [abs_mul, abs_of_nonneg hamp]
    calc |Real.sin _| * amplitudeFor isFreehand
        ≤ 1 * amplitudeFor isFreehand :=
          mul_le_mul_of_nonneg_right (Real.abs_sin_le_one _) hamp
      _ = amplitudeFor isFreehand := one_mul _
  simp only [waveSample, add_sub_cancel_left]
  exact perp_disp_bound (p2.x - p1.x) (p2.y - p1.y) _ _ hamp hpos hoff

end Designer

namespace Designer

/-- Witness for C2 at the concrete segment from `(0,0)` to `(3,4)`,
freehand mode, first sub-sample. -/
theorem c2_amplitude_bound_witness :
    (⟨0, 0⟩ : Pt) ≠ ⟨3, 4⟩ ∧ 0 ≤ segSteps ⟨0, 0⟩ ⟨3, 4⟩ ∧
      sampleWithinAmplitude true ⟨0, 0⟩ ⟨3, 4⟩ 0 0 := by
  have hne : (⟨0, 0⟩ : Pt) ≠ ⟨3, 4⟩ := by
    intro hEq
    have h3 := congrArg Pt.x hEq
    norm_num at h3
  exact ⟨hne, Nat.zero_le _,
    (c2_amplitude_bound true ⟨0, 0⟩ ⟨3, 4⟩ 0 0 hne (Nat.zero_le _)).1⟩

/-- Claim C10: when every pair of consecutive captured points is distinct,
every segment the dribble loop processes has positive length, so the
unguarded division by `length` never divides by zero and the perpendicular
is a genuine unit vector. -/
theorem c10_no_division_by_zero (ps : List Pt)
    (hch : List.Chain' (fun a b => a ≠ b) ps) (i : ℕ)
    (hi : i + 1 < ps.length) :
    segNondegenerate (ps.get ⟨i, Nat.lt_of_succ_lt hi⟩)
      (ps.get ⟨i + 1, hi⟩) := by
  have hne : ps.get ⟨i, Nat.lt_of_succ_lt hi⟩ ≠ ps.get ⟨i + 1, hi⟩ :=
    List.chain'_iff_get.mp hch i (by omega)
  exact ⟨segDistance_pos _ _ hne, perp_unit _ _ hne⟩

/-- Witness for C10 on the concrete two-point path `(0,0), (3,4)`. -/
theorem c10_no_division_by_zero_witness :
    List.Chain' (fun a b : Pt => a ≠ b) [⟨0, 0⟩, ⟨3, 4⟩] ∧
      0 + 1 < ([⟨0, 0⟩, ⟨3, 4⟩] : List Pt).length ∧
      segNondegenerate (⟨0, 0⟩ : Pt) ⟨3, 4⟩ := by
  have hne : (⟨0, 0⟩ : Pt) ≠ ⟨3, 4⟩ := by
    intro hEq
    have h3 := congrArg Pt.x hEq
    norm_num at h3
  have hch : List.Chain' (fun a b : Pt => a ≠ b) [⟨0, 0⟩, ⟨3, 4⟩] := by
    simp [List.chain'_cons, hne]
  exact ⟨hch, by simp,
    c10_no_division_by_zero [⟨0, 0⟩, ⟨3, 4⟩] hch 0 (by simp)⟩

end Designer
